import Mathlib

/-!
Verification of the `aws-iac-codescan` repository: two near-identical Python
CLI scripts (`src/kubernetes/scan.py` and `src/kubernetes-crossplane/scan.py`)
that discover Kubernetes YAML manifests, optionally render them with
`kustomize`, run the external `checkov` scanner, and (in the kubernetes
variant) summarize the scanner's JSON report as Markdown.

The embedding models the file system as a rose tree, `os.walk` as a recursive
traversal, and each script's `main` as a function from an environment
(file-system predicates, tool availability, subprocess exit codes, JSON
parsing results, timestamps) to a trace of observable events plus the process
exit code.
-/

/-- A file-system tree: the shape seen by `os.walk`.  A node is either a plain
file or a directory with a list of children.  Entry names are stored in the
nodes; full paths are built during traversal. -/
inductive FSTree where
  | file (name : String) : FSTree
  | dir (name : String) (children : List FSTree) : FSTree

/-- Model of `os.path.join(a, b)` for a single join step (POSIX semantics): an absolute
`b` discards `a`; otherwise a separator is inserted unless `a` is empty or
already ends with one. -/
def osPathJoin (a b : String) : String :=
  if b.startsWith "/" then b
  else if a = "" || a.endsWith "/" then a ++ b
  else a ++ "/" ++ b

/-- Names of the plain-file children of a directory: the `files` component of
an `os.walk` triple. -/
def fileNames : List FSTree → List String
  | [] => []
  | FSTree.file n :: rest => n :: fileNames rest
  | FSTree.dir _ _ :: rest => fileNames rest

mutual
/-- Model of `os.walk(path)` over the tree rooted at `path`: yields the `(root, files)`
part of each triple in top-down order (the `dirs` component is unused by the
scripts).  Walking a non-directory yields nothing, as `os.walk` does. -/
def walkTree (path : String) : FSTree → List (String × List String)
  | FSTree.file _ => []
  | FSTree.dir _ cs => (path, fileNames cs) :: walkKids path cs

/-- The recursive descents of `os.walk` into the directory children, in list
order. -/
def walkKids (path : String) : List FSTree → List (String × List String)
  | [] => []
  | FSTree.file _ :: rest => walkKids path rest
  | FSTree.dir n cs :: rest =>
      walkTree (osPathJoin path n) (FSTree.dir n cs) ++ walkKids path rest
end

/-- The test `filename.endswith(('.yaml', '.yml'))` from `find_yaml_files`. -/
def isYamlName (filename : String) : Bool :=
  filename.endsWith ".yaml" || filename.endsWith ".yml"

namespace Kube

/-- The inner loop of `find_yaml_files` (src/kubernetes/scan.py lines
100-103): for each filename in one walk triple, append
`os.path.join(root, filename)` when the manifest-extension test passes. -/
def collectYaml (root : String) : List String → List String
  | [] => []
  | n :: rest =>
      if isYamlName n then osPathJoin root n :: collectYaml root rest
      else collectYaml root rest

/-- The outer loop of `find_yaml_files` (src/kubernetes/scan.py lines
99-103): accumulate over all walk triples in order. -/
def collectEntries : List (String × List String) → List String
  | [] => []
  | (root, files) :: rest => collectYaml root files ++ collectEntries rest

/-- Model of `find_yaml_files` of src/kubernetes/scan.py (lines 89-104): recursively
finds all `.yaml` and `.yml` files under `base_path`, whose tree is `t`. -/
def find_yaml_files (base_path : String) (t : FSTree) : List String :=
  collectEntries (walkTree base_path t)

end Kube

/-- Specification-side notion of reachability: `ReachableFile base t p n`
holds when the tree `t`, rooted at path `base`, contains (at any depth) a
plain file named `n` whose full path is `p`. -/
inductive ReachableFile : String → FSTree → String → String → Prop where
  | here {base m cs n} : FSTree.file n ∈ cs →
      ReachableFile base (FSTree.dir m cs) (osPathJoin base n) n
  | there {base m cs d ds p n} : FSTree.dir d ds ∈ cs →
      ReachableFile (osPathJoin base d) (FSTree.dir d ds) p n →
      ReachableFile base (FSTree.dir m cs) p n

/-- Structural induction for the nested inductive `FSTree`, with the usual
rose-tree membership hypothesis. -/
def FSTree.inductionOn {motive : FSTree → Prop}
    (hf : ∀ n, motive (FSTree.file n))
    (hd : ∀ n cs, (∀ c, c ∈ cs → motive c) → motive (FSTree.dir n cs)) :
    ∀ t, motive t
  | FSTree.file n => hf n
  | FSTree.dir n cs =>
      hd n cs (fun c hc =>
        have : sizeOf c < sizeOf (FSTree.dir n cs) := by
          have h1 : sizeOf c < sizeOf cs := List.sizeOf_lt_of_mem hc
          simp only [FSTree.dir.sizeOf_spec]
          omega
        FSTree.inductionOn hf hd c)
termination_by t => sizeOf t

/-- Parsed CLI arguments (`parse_args`): target path and the four boolean
toggles. -/
structure Args where
  target : String
  dry_run : Bool
  debug : Bool
  render_only : Bool
  render : Bool

/-- One failed/passed check object as read from the Checkov JSON report;
every field is optional, matching `dict.get`. -/
structure CheckovCheck where
  check_id : Option String
  check_name : Option String
  file_path : Option String
  resource : Option String
  severity : Option String
  guideline : Option String
deriving DecidableEq

/-- The `results` object of a Checkov JSON report. -/
structure CheckovResults where
  passed_checks : List CheckovCheck
  failed_checks : List CheckovCheck
deriving DecidableEq

/-- The `summary` object of a Checkov JSON report; every field is optional,
matching `summary.get(key, default)`. -/
structure CheckovSummary where
  passed : Option Nat
  failed : Option Nat
  skipped : Option Nat
  parsing_errors : Option Nat
  resource_count : Option Nat
  checkov_version : Option String
deriving DecidableEq

/-- A parsed Checkov JSON report: `results` and `summary` objects, each
possibly absent (`data.get("results", {})`, `data.get("summary", {})`). -/
structure CheckovReport where
  results : Option CheckovResults
  summary : Option CheckovSummary
deriving DecidableEq

/-- The default for an absent `results` object: `{}`. -/
def emptyResults : CheckovResults := ⟨[], []⟩

/-- The default for an absent `summary` object: `{}`. -/
def emptySummary : CheckovSummary := ⟨none, none, none, none, none, none⟩

/-- Observable actions of a script run: log lines, file-system side effects,
and external subprocess invocations (with their full argument vectors). -/
inductive Event where
  | argsParsed : Event
  | validated (path : String) : Event
  | logError (msg : String) : Event
  | logWarning (msg : String) : Event
  | logInfo (msg : String) : Event
  | mkdir (path : String) : Event
  | openedForWrite (path : String) : Event
  | renderInvoked (cmd : List String) : Event
  | scanInvoked (cmd : List String) : Event
  | filesDiscovered (files : List String) : Event
  | wroteFile (path : String) (content : String) : Event
deriving DecidableEq

/-- Whether an event is an invocation of the external scanner. -/
def Event.isScanInvoked : Event → Bool
  | Event.scanInvoked _ => true
  | _ => false

/-- Whether an event is an invocation of the external renderer. -/
def Event.isRenderInvoked : Event → Bool
  | Event.renderInvoked _ => true
  | _ => false

/-- Whether an event writes a generated file (the Markdown summary). -/
def Event.isWroteFile : Event → Bool
  | Event.wroteFile _ _ => true
  | _ => false

/-- Whether an event is the in-process file-discovery step. -/
def Event.isFilesDiscovered : Event → Bool
  | Event.filesDiscovered _ => true
  | _ => false

/-- The environment a run executes in: file-system predicates (`os.path`),
the tree `os.walk` sees under each path, availability and outcome of the
external tools, the parse result of the scanner's JSON report at each path,
and the two timestamp strings `datetime.now()` is formatted to. -/
structure Env where
  isDir : String → Bool
  isFile : String → Bool
  treeAt : String → FSTree
  kustomizeOnPath : Bool
  kustomizeOk : Bool
  checkovExit : Int
  readJson : String → Option CheckovReport
  timestamp : String
  fileTimestamp : String

/-- The error logged by `validate_target_directory`. -/
def invalidTargetMsg (target_path : String) : String :=
  "Target directory '" ++ target_path ++ "' does not exist or is not a directory."

/-- The error logged when `shutil.which("kustomize")` fails. -/
def kustomizeMissingMsg : String :=
  "'kustomize' not found in PATH. Please install it before using rendering features."

/-- The warning logged when Checkov exits nonzero. -/
def checkovWarning (code : Int) : String :=
  "Checkov completed with violations (exit code " ++ toString code ++ ")."

/-- Model of `check.get('severity') or "N/A"`: Python `or` replaces a missing or
empty (falsy) severity string. -/
def severityText : Option String → String
  | none => "N/A"
  | some s => if s = "" then "N/A" else s

namespace Kube

/-- The `md.write` calls for one failed check (src/kubernetes/scan.py lines
174-183), in order. -/
def checkChunks (check : CheckovCheck) : List String :=
  ["### " ++ check.check_id.getD "UNKNOWN" ++ " - " ++
     check.check_name.getD "Unnamed Check" ++ "\n",
   "- **File:** `" ++ check.file_path.getD "unknown" ++ "`\n",
   "- **Resource:** `" ++ check.resource.getD "unknown" ++ "`\n",
   "- **Severity:** " ++ severityText check.severity ++ "\n"] ++
  (match check.guideline with
   | some g =>
       if g = "" then []
       else ["- **Guideline:** [" ++ g ++ "](" ++ g ++ ")\n"]
   | none => []) ++
  ["\n"]

/-- The loop over `failed_checks` (src/kubernetes/scan.py line 174). -/
def checksChunks : List CheckovCheck → List String
  | [] => []
  | c :: rest => checkChunks c ++ checksChunks rest

/-- All `md.write` calls of `generate_summary_markdown`
(src/kubernetes/scan.py lines 161-183), in order; their concatenation is the
content of the summary file. -/
def mdChunks (data : CheckovReport) (timestamp : String) : List String :=
  let failed_checks := (data.results.getD emptyResults).failed_checks
  let summary := data.summary.getD emptySummary
  ["# Checkov Scan Summary\n\n",
   "## Scan Metadata\n",
   "- **Timestamp:** " ++ timestamp ++ "\n",
   "- **Passed Checks:** " ++ toString (summary.passed.getD 0) ++ "\n",
   "- **Failed Checks:** " ++ toString (summary.failed.getD 0) ++ "\n",
   "- **Skipped Checks:** " ++ toString (summary.skipped.getD 0) ++ "\n",
   "- **Parsing Errors:** " ++ toString (summary.parsing_errors.getD 0) ++ "\n",
   "- **Resources Scanned:** " ++ toString (summary.resource_count.getD 0) ++ "\n",
   "- **Checkov Version:** " ++ summary.checkov_version.getD "N/A" ++ "\n\n"] ++
  (if failed_checks.isEmpty then []
   else "## Failed Checks Detail\n\n" :: checksChunks failed_checks)

/-- Model of `validate_target_directory` (src/kubernetes/scan.py lines 76-87): the
events it logs, and `some code` when it calls `sys.exit(code)`. -/
def validate_target_directory (env : Env) (target_path : String) :
    List Event × Option Nat :=
  if env.isDir target_path then ([], none)
  else ([Event.logError (invalidTargetMsg target_path)], some 1)

/-- Model of `render_kustomize` (src/kubernetes/scan.py lines 106-139): creates the
output directory, then checks for `kustomize` on PATH (error + exit 1 if
absent), then opens the output file and runs `kustomize build` (error +
exit 1 on failure).  Returns the events and the output path on success. -/
def render_kustomize (env : Env) (target_path : String) :
    List Event × Option String :=
  let output_dir := osPathJoin "rendered_output" ("render-" ++ env.fileTimestamp)
  let output_file := osPathJoin output_dir "manifest.yaml"
  if !env.kustomizeOnPath then
    ([Event.mkdir output_dir, Event.logError kustomizeMissingMsg], none)
  else if env.kustomizeOk then
    ([Event.mkdir output_dir, Event.openedForWrite output_file,
      Event.renderInvoked ["kustomize", "build", target_path]],
     some output_file)
  else
    ([Event.mkdir output_dir, Event.openedForWrite output_file,
      Event.renderInvoked ["kustomize", "build", target_path],
      Event.logError "Kustomize rendering failed"], none)

/-- The Checkov argument vector built by `run_checkov_scan`
(src/kubernetes/scan.py lines 200-209). -/
def checkov_cmd (scan_flag scan_path output_dir : String) : List String :=
  ["checkov", "--framework", "kubernetes", "--quiet", "--compact",
   "--soft-fail", scan_flag, scan_path, "--output", "json",
   "--output-file-path", output_dir]

/-- Model of `generate_summary_markdown` (src/kubernetes/scan.py lines 141-185): on a
read/parse failure it logs an error and returns; otherwise it writes the
summary file and logs its path. -/
def generate_summary_markdown (env : Env) (json_path output_dir : String) :
    List Event :=
  match env.readJson json_path with
  | none => [Event.logError "Failed to read JSON report"]
  | some data =>
      let summary_file :=
        osPathJoin output_dir ("CHECKOV_SUMMARY_" ++ env.fileTimestamp ++ ".md")
      [Event.wroteFile summary_file (String.join (mdChunks data env.timestamp)),
       Event.logInfo ("Summary Markdown generated: " ++ summary_file)]

/-- Model of `run_checkov_scan` (src/kubernetes/scan.py lines 187-223): runs Checkov
with `--soft-fail`, logs info or a warning depending on its exit code, and
always proceeds to generate the Markdown summary. -/
def run_checkov_scan (env : Env) (scan_path : String) : List Event :=
  let output_dir := "checkov_output"
  let json_file := osPathJoin output_dir "results_json.json"
  let scan_flag := if env.isFile scan_path then "--file" else "--directory"
  [Event.mkdir output_dir,
   Event.scanInvoked (checkov_cmd scan_flag scan_path output_dir)] ++
  (if env.checkovExit = 0 then
     [Event.logInfo "Checkov scan completed with no policy violations."]
   else [Event.logWarning (checkovWarning env.checkovExit)]) ++
  [Event.logInfo ("JSON Report: " ++ json_file)] ++
  generate_summary_markdown env json_file output_dir

/-- Model of `main` (src/kubernetes/scan.py lines 225-252): parse, configure logging,
validate, then render-only / render / dry-run / scan.  Returns the event
trace and the process exit code (0 when `main` returns normally). -/
def main (env : Env) (args : Args) : List Event × Nat :=
  match validate_target_directory env args.target with
  | (evs, some code) => (Event.argsParsed :: evs, code)
  | (evs, none) =>
    let pre := Event.argsParsed :: (evs ++ [Event.validated args.target])
    if args.render_only then
      match render_kustomize env args.target with
      | (revs, some output_path) =>
          (pre ++ revs ++
            [Event.logInfo
              ("Render-only mode complete. Output saved to: " ++ output_path)], 0)
      | (revs, none) => (pre ++ revs, 1)
    else if args.render then
      match render_kustomize env args.target with
      | (revs, some rendered_manifest) =>
          (pre ++ revs ++ run_checkov_scan env rendered_manifest, 0)
      | (revs, none) => (pre ++ revs, 1)
    else
      let yaml_files := find_yaml_files args.target (env.treeAt args.target)
      let pre2 := pre ++ [Event.filesDiscovered yaml_files]
      if args.dry_run then
        (pre2 ++
          (Event.logInfo "[DRY RUN] YAML files discovered:" ::
            yaml_files.map (fun p => Event.logInfo ("  " ++ p))) ++
          [Event.logInfo
            ("[DRY RUN] Total: " ++ toString yaml_files.length ++ " file(s)")], 0)
      else (pre2 ++ run_checkov_scan env args.target, 0)

end Kube

namespace Cross

/-- The inner loop of `find_yaml_files` (src/kubernetes-crossplane/scan.py
lines 99-102). -/
def collectYaml (root : String) : List String → List String
  | [] => []
  | n :: rest =>
      if isYamlName n then osPathJoin root n :: collectYaml root rest
      else collectYaml root rest

/-- The outer loop of `find_yaml_files` (src/kubernetes-crossplane/scan.py
lines 98-102). -/
def collectEntries : List (String × List String) → List String
  | [] => []
  | (root, files) :: rest => collectYaml root files ++ collectEntries rest

/-- Model of `find_yaml_files` of src/kubernetes-crossplane/scan.py (lines 88-103). -/
def find_yaml_files (base_path : String) (t : FSTree) : List String :=
  collectEntries (walkTree base_path t)

/-- Model of `validate_target_directory` of src/kubernetes-crossplane/scan.py
(lines 75-86). -/
def validate_target_directory (env : Env) (target_path : String) :
    List Event × Option Nat :=
  if env.isDir target_path then ([], none)
  else ([Event.logError (invalidTargetMsg target_path)], some 1)

/-- Model of `render_kustomize` of src/kubernetes-crossplane/scan.py
(lines 105-138), textually identical to the kubernetes version. -/
def render_kustomize (env : Env) (target_path : String) :
    List Event × Option String :=
  let output_dir := osPathJoin "rendered_output" ("render-" ++ env.fileTimestamp)
  let output_file := osPathJoin output_dir "manifest.yaml"
  if !env.kustomizeOnPath then
    ([Event.mkdir output_dir, Event.logError kustomizeMissingMsg], none)
  else if env.kustomizeOk then
    ([Event.mkdir output_dir, Event.openedForWrite output_file,
      Event.renderInvoked ["kustomize", "build", target_path]],
     some output_file)
  else
    ([Event.mkdir output_dir, Event.openedForWrite output_file,
      Event.renderInvoked ["kustomize", "build", target_path],
      Event.logError "Kustomize rendering failed"], none)

/-- The Checkov argument vector built by `run_checkov_scan`
(src/kubernetes-crossplane/scan.py lines 155-161): no `--quiet`,
`--compact` or `--soft-fail` flags. -/
def checkov_cmd (scan_flag scan_path output_path : String) : List String :=
  ["checkov", "--framework", "kubernetes", scan_flag, scan_path,
   "--output", "json", "--output-file-path", output_path]

/-- Model of `run_checkov_scan` of src/kubernetes-crossplane/scan.py (lines
140-173): runs Checkov and logs, but generates no Markdown summary (the
script has no `generate_summary_markdown`). -/
def run_checkov_scan (env : Env) (scan_path : String) : List Event :=
  let output_dir := "checkov_output"
  let json_file := output_dir
  let scan_flag := if env.isFile scan_path then "--file" else "--directory"
  [Event.mkdir output_dir,
   Event.logInfo ("Checkov output will be written to: " ++ json_file),
   Event.scanInvoked (checkov_cmd scan_flag scan_path json_file)] ++
  (if env.checkovExit = 0 then
     [Event.logInfo "Checkov scan completed with no policy violations."]
   else [Event.logWarning (checkovWarning env.checkovExit)]) ++
  [Event.logInfo ("JSON Report: " ++ json_file)]

/-- Model of `main` of src/kubernetes-crossplane/scan.py (lines 175-202). -/
def main (env : Env) (args : Args) : List Event × Nat :=
  match validate_target_directory env args.target with
  | (evs, some code) => (Event.argsParsed :: evs, code)
  | (evs, none) =>
    let pre := Event.argsParsed :: (evs ++ [Event.validated args.target])
    if args.render_only then
      match render_kustomize env args.target with
      | (revs, some output_path) =>
          (pre ++ revs ++
            [Event.logInfo
              ("Render-only mode complete. Output saved to: " ++ output_path)], 0)
      | (revs, none) => (pre ++ revs, 1)
    else if args.render then
      match render_kustomize env args.target with
      | (revs, some rendered_manifest) =>
          (pre ++ revs ++ run_checkov_scan env rendered_manifest, 0)
      | (revs, none) => (pre ++ revs, 1)
    else
      let yaml_files := find_yaml_files args.target (env.treeAt args.target)
      let pre2 := pre ++ [Event.filesDiscovered yaml_files]
      if args.dry_run then
        (pre2 ++
          (Event.logInfo "[DRY RUN] YAML files discovered:" ::
            yaml_files.map (fun p => Event.logInfo ("  " ++ p))) ++
          [Event.logInfo
            ("[DRY RUN] Total: " ++ toString yaml_files.length ++ " file(s)")], 0)
      else (pre2 ++ run_checkov_scan env args.target, 0)

end Cross

/-- A report is a well-formed scanner output when its `summary` counters
agree with its `results` check lists, as genuine Checkov reports do. -/
def WellFormedReport (data : CheckovReport) : Prop :=
  ∃ r s, data.results = some r ∧ data.summary = some s ∧
    s.passed = some r.passed_checks.length ∧
    s.failed = some r.failed_checks.length

/-- The number of passed checks recorded in a report's `results` lists. -/
def reportPassedCount (data : CheckovReport) : Nat :=
  (data.results.getD emptyResults).passed_checks.length

/-- The number of failed checks recorded in a report's `results` lists. -/
def reportFailedCount (data : CheckovReport) : Nat :=
  (data.results.getD emptyResults).failed_checks.length

/-- A concrete well-formed Checkov fixture: two passed checks, one failed
check, matching summary counters. -/
def witReport : CheckovReport :=
  ⟨some ⟨[⟨none, none, none, none, none, none⟩,
          ⟨none, none, none, none, none, none⟩],
         [⟨some "CKV_K8S_21", some "The default namespace should not be used",
           some "/deploy.yaml", some "Deployment.app", some "LOW",
           some "https://example.com/ckv-k8s-21"⟩]⟩,
   some ⟨some 2, some 1, some 0, some 0, some 3, some "3.2.0"⟩⟩

/-- A concrete environment: `manifests` is a valid directory holding one
YAML file and one non-YAML file, both external tools are available and
succeed, and the scanner's JSON report parses to `witReport`. -/
def witEnv : Env where
  isDir := fun p => p == "manifests"
  isFile := fun _ => false
  treeAt := fun _ =>
    FSTree.dir "manifests" [FSTree.file "a.yaml", FSTree.file "b.txt"]
  kustomizeOnPath := true
  kustomizeOk := true
  checkovExit := 0
  readJson := fun _ => some witReport
  timestamp := "2025-01-01 00:00:00"
  fileTimestamp := "20250101-000000"

/-- Variant of `witEnv` with the scanner exiting nonzero (violations found). -/
def witEnvViolations : Env := { witEnv with checkovExit := 13 }

/-- Variant of `witEnv` with `kustomize` absent from PATH. -/
def witEnvNoTool : Env := { witEnv with kustomizeOnPath := false }

/-- Variant of `witEnv` with an unreadable/unparsable scanner JSON report. -/
def witEnvBadJson : Env := { witEnv with readJson := fun _ => none }

/-- Arguments: scan `manifests` with no toggles set. -/
def argsPlain : Args := ⟨"manifests", false, false, false, false⟩

/-- Arguments: `--target manifests --dry-run`. -/
def argsDry : Args := ⟨"manifests", true, false, false, false⟩

/-- Arguments: `--target manifests --render-only`. -/
def argsRenderOnly : Args := ⟨"manifests", false, false, true, false⟩

/-- Arguments: `--target nowhere` with no toggles; `nowhere` is not a
directory in `witEnv`. -/
def argsNoDir : Args := ⟨"nowhere", false, false, false, false⟩

theorem mem_fileNames {n : String} : ∀ {cs : List FSTree},
    n ∈ fileNames cs ↔ FSTree.file n ∈ cs := by
  intro cs
  induction cs with
  | nil => simp [fileNames]
  | cons c rest ih =>
    cases c with
    | file m =>
      simp only [fileNames, List.mem_cons, ih]
      constructor
      · rintro (rfl | h)
        · exact Or.inl rfl
        · exact Or.inr h
      · rintro (h | h)
        · exact Or.inl (by injection h)
        · exact Or.inr h
    | dir m ds =>
      simp only [fileNames, List.mem_cons, ih]
      constructor
      · exact Or.inr
      · rintro (h | h)
        · exact absurd h (by simp)
        · exact h

theorem mem_collectYaml {p root : String} : ∀ {files : List String},
    p ∈ Kube.collectYaml root files ↔
      ∃ n, n ∈ files ∧ isYamlName n = true ∧ p = osPathJoin root n := by
  intro files
  induction files with
  | nil => simp [Kube.collectYaml]
  | cons f rest ih =>
    by_cases hy : isYamlName f = true
    · simp only [Kube.collectYaml, if_pos hy, List.mem_cons, ih]
      constructor
      · rintro (rfl | ⟨n, hn, hyn, rfl⟩)
        · exact ⟨f, Or.inl rfl, hy, rfl⟩
        · exact ⟨n, Or.inr hn, hyn, rfl⟩
      · rintro ⟨n, hn | hn, hyn, rfl⟩
        · subst hn; exact Or.inl rfl
        · exact Or.inr ⟨n, hn, hyn, rfl⟩
    · simp only [Kube.collectYaml, if_neg hy, List.mem_cons, ih]
      constructor
      · rintro ⟨n, hn, hyn, rfl⟩
        exact ⟨n, Or.inr hn, hyn, rfl⟩
      · rintro ⟨n, hn | hn, hyn, rfl⟩
        · subst hn; exact absurd hyn hy
        · exact ⟨n, hn, hyn, rfl⟩

theorem collectEntries_append : ∀ (xs ys : List (String × List String)),
    Kube.collectEntries (xs ++ ys) =
      Kube.collectEntries xs ++ Kube.collectEntries ys := by
  intro xs ys
  induction xs with
  | nil => simp [Kube.collectEntries]
  | cons e rest ih =>
    obtain ⟨root, files⟩ := e
    simp [Kube.collectEntries, ih]

theorem reachable_file_elim {base fn p n : String}
    (h : ReachableFile base (FSTree.file fn) p n) : False := by
  cases h

theorem reachable_dir_iff {base m p n : String} {cs : List FSTree} :
    ReachableFile base (FSTree.dir m cs) p n ↔
      (FSTree.file n ∈ cs ∧ p = osPathJoin base n) ∨
      (∃ d ds, FSTree.dir d ds ∈ cs ∧
        ReachableFile (osPathJoin base d) (FSTree.dir d ds) p n) := by
  constructor
  · intro h
    cases h with
    | here hmem => exact Or.inl ⟨hmem, rfl⟩
    | there hmem hrec => exact Or.inr ⟨_, _, hmem, hrec⟩
  · rintro (⟨hmem, rfl⟩ | ⟨d, ds, hmem, hrec⟩)
    · exact ReachableFile.here hmem
    · exact ReachableFile.there hmem hrec

theorem mem_collect_walkKids {p : String} (cs : List FSTree)
    (ih : ∀ c ∈ cs, ∀ b q, q ∈ Kube.collectEntries (walkTree b c) ↔
        ∃ n, ReachableFile b c q n ∧ isYamlName n = true) :
    ∀ base, p ∈ Kube.collectEntries (walkKids base cs) ↔
      ∃ n d ds, FSTree.dir d ds ∈ cs ∧
        ReachableFile (osPathJoin base d) (FSTree.dir d ds) p n ∧
        isYamlName n = true := by
  induction cs with
  | nil =>
    intro base
    simp [walkKids, Kube.collectEntries]
  | cons c rest ihl =>
    intro base
    have ihrest := ihl (fun c hc => ih c (List.mem_cons_of_mem _ hc))
    cases c with
    | file fn =>
      simp only [walkKids]
      rw [ihrest base]
      constructor
      · rintro ⟨n, d, ds, hmem, hr, hy⟩
        exact ⟨n, d, ds, List.mem_cons_of_mem _ hmem, hr, hy⟩
      · rintro ⟨n, d, ds, hmem, hr, hy⟩
        rcases List.mem_cons.mp hmem with heq | hmem2
        · exact absurd heq (by simp)
        · exact ⟨n, d, ds, hmem2, hr, hy⟩
    | dir dn dcs =>
      simp only [walkKids]
      rw [collectEntries_append, List.mem_append,
        ih (FSTree.dir dn dcs) (List.mem_cons_self _ _) (osPathJoin base dn) p,
        ihrest base]
      constructor
      · rintro (⟨n, hr, hy⟩ | ⟨n, d, ds, hmem, hr, hy⟩)
        · exact ⟨n, dn, dcs, List.mem_cons_self _ _, hr, hy⟩
        · exact ⟨n, d, ds, List.mem_cons_of_mem _ hmem, hr, hy⟩
      · rintro ⟨n, d, ds, hmem, hr, hy⟩
        rcases List.mem_cons.mp hmem with heq | hmem2
        · injection heq with h1 h2
          subst h1; subst h2
          exact Or.inl ⟨n, hr, hy⟩
        · exact Or.inr ⟨n, d, ds, hmem2, hr, hy⟩

theorem find_mem_aux : ∀ t : FSTree, ∀ base p : String,
    p ∈ Kube.collectEntries (walkTree base t) ↔
      ∃ n, ReachableFile base t p n ∧ isYamlName n = true := by
  intro t
  induction t using FSTree.inductionOn with
  | hf fn =>
    intro base p
    simp only [walkTree, Kube.collectEntries, List.not_mem_nil, false_iff]
    rintro ⟨n, hr, -⟩
    exact reachable_file_elim hr
  | hd m cs ih =>
    intro base p
    simp only [walkTree, Kube.collectEntries]
    rw [List.mem_append, mem_collectYaml, mem_collect_walkKids cs ih base]
    constructor
    · rintro (⟨n, hn, hy, rfl⟩ | ⟨n, d, ds, hmem, hr, hy⟩)
      · exact ⟨n, ReachableFile.here (mem_fileNames.mp hn), hy⟩
      · exact ⟨n, ReachableFile.there hmem hr, hy⟩
    · rintro ⟨n, hr, hy⟩
      rcases reachable_dir_iff.mp hr with ⟨hmem, rfl⟩ | ⟨d, ds, hmem, hr2⟩
      · exact Or.inl ⟨n, mem_fileNames.mpr hmem, hy, rfl⟩
      · exact Or.inr ⟨n, d, ds, hmem, hr2, hy⟩

/-- C1: for every base directory, `find_yaml_files` returns exactly the set
of files reachable by recursive traversal of that directory whose names end
in `.yaml` or `.yml`: a path is in the returned list iff it is the full path
of some reachable file with a manifest extension. -/
theorem C1_find_yaml_files_all_and_only (base_path p : String) (t : FSTree) :
    p ∈ Kube.find_yaml_files base_path t ↔
      ∃ n, ReachableFile base_path t p n ∧ isYamlName n = true :=
  find_mem_aux t base_path p

/-- C2: for every well-formed scanner-results fixture, the Markdown
summary's "Passed Checks" and "Failed Checks" lines report exactly the
numbers of passed and failed checks recorded in the fixture. -/
theorem C2_summary_counts (data : CheckovReport) (ts : String)
    (h : WellFormedReport data) :
    (Kube.mdChunks data ts).get? 3 =
      some ("- **Passed Checks:** " ++ toString (reportPassedCount data) ++ "\n") ∧
    (Kube.mdChunks data ts).get? 4 =
      some ("- **Failed Checks:** " ++ toString (reportFailedCount data) ++ "\n") := by
  obtain ⟨r, s, hr, hs, hp, hf⟩ := h
  simp [Kube.mdChunks, hr, hs, hp, hf, reportPassedCount, reportFailedCount]

theorem C2_summary_counts_witness :
    (Kube.mdChunks witReport "2025-01-01 00:00:00").get? 3 =
      some ("- **Passed Checks:** " ++ toString (reportPassedCount witReport) ++ "\n") ∧
    (Kube.mdChunks witReport "2025-01-01 00:00:00").get? 4 =
      some ("- **Failed Checks:** " ++ toString (reportFailedCount witReport) ++ "\n") :=
  C2_summary_counts witReport "2025-01-01 00:00:00" ⟨_, _, rfl, rfl, rfl, rfl⟩

/-- C3: for every target path that is not a directory, both scripts
terminate with exit code 1, and the trace contains no renderer invocation,
no scanner invocation, and no file discovery. -/
theorem C3_invalid_target (env : Env) (args : Args)
    (h : env.isDir args.target = false) :
    (Kube.main env args).2 = 1 ∧ (Cross.main env args).2 = 1 ∧
    (Kube.main env args).1.countP Event.isRenderInvoked = 0 ∧
    (Kube.main env args).1.countP Event.isScanInvoked = 0 ∧
    (Kube.main env args).1.countP Event.isFilesDiscovered = 0 ∧
    (Cross.main env args).1.countP Event.isRenderInvoked = 0 ∧
    (Cross.main env args).1.countP Event.isScanInvoked = 0 ∧
    (Cross.main env args).1.countP Event.isFilesDiscovered = 0 := by
  have hk : Kube.main env args =
      ([Event.argsParsed, Event.logError (invalidTargetMsg args.target)], 1) := by
    simp [Kube.main, Kube.validate_target_directory, h]
  have hc : Cross.main env args =
      ([Event.argsParsed, Event.logError (invalidTargetMsg args.target)], 1) := by
    simp [Cross.main, Cross.validate_target_directory, h]
  rw [hk, hc]
  refine ⟨rfl, rfl, ?_, ?_, ?_, ?_, ?_, ?_⟩ <;> rfl

theorem C3_invalid_target_witness :
    (Kube.main witEnv argsNoDir).2 = 1 ∧ (Cross.main witEnv argsNoDir).2 = 1 ∧
    (Kube.main witEnv argsNoDir).1.countP Event.isRenderInvoked = 0 ∧
    (Kube.main witEnv argsNoDir).1.countP Event.isScanInvoked = 0 ∧
    (Kube.main witEnv argsNoDir).1.countP Event.isFilesDiscovered = 0 ∧
    (Cross.main witEnv argsNoDir).1.countP Event.isRenderInvoked = 0 ∧
    (Cross.main witEnv argsNoDir).1.countP Event.isScanInvoked = 0 ∧
    (Cross.main witEnv argsNoDir).1.countP Event.isFilesDiscovered = 0 :=
  C3_invalid_target witEnv argsNoDir rfl

theorem collectYaml_eq (root : String) : ∀ fs : List String,
    Kube.collectYaml root fs = Cross.collectYaml root fs := by
  intro fs
  induction fs with
  | nil => rfl
  | cons f rest ih => simp [Kube.collectYaml, Cross.collectYaml, ih]

theorem collectEntries_eq : ∀ es : List (String × List String),
    Kube.collectEntries es = Cross.collectEntries es := by
  intro es
  induction es with
  | nil => rfl
  | cons e rest ih =>
    obtain ⟨root, files⟩ := e
    simp [Kube.collectEntries, Cross.collectEntries, ih, collectYaml_eq]

/-- C10: the file-discovery and target-validation functions of the two
scripts are extensionally equal: `find_yaml_files` returns the same list in
both, and `validate_target_directory` accepts/rejects the same paths with
the same events. -/
theorem C10_scripts_extensionally_equal (base_path p : String) (t : FSTree)
    (env : Env) :
    Kube.find_yaml_files base_path t = Cross.find_yaml_files base_path t ∧
    Kube.validate_target_directory env p = Cross.validate_target_directory env p :=
  ⟨collectEntries_eq (walkTree base_path t), rfl⟩

theorem kube_main_default (env : Env) (args : Args)
    (hdir : env.isDir args.target = true)
    (hro : args.render_only = false) (hr : args.render = false)
    (hdry : args.dry_run = false) :
    Kube.main env args =
      (Event.argsParsed :: Event.validated args.target ::
        Event.filesDiscovered
          (Kube.find_yaml_files args.target (env.treeAt args.target)) ::
        Kube.run_checkov_scan env args.target, 0) := by
  simp [Kube.main, Kube.validate_target_directory, hdir, hro, hr, hdry]

theorem cross_main_default (env : Env) (args : Args)
    (hdir : env.isDir args.target = true)
    (hro : args.render_only = false) (hr : args.render = false)
    (hdry : args.dry_run = false) :
    Cross.main env args =
      (Event.argsParsed :: Event.validated args.target ::
        Event.filesDiscovered
          (Cross.find_yaml_files args.target (env.treeAt args.target)) ::
        Cross.run_checkov_scan env args.target, 0) := by
  simp [Cross.main, Cross.validate_target_directory, hdir, hro, hr, hdry]

theorem kube_scan_cmds (env : Env) (scan_path : String) (cmd : List String)
    (h : Event.scanInvoked cmd ∈ Kube.run_checkov_scan env scan_path) :
    cmd = Kube.checkov_cmd
      (if env.isFile scan_path then "--file" else "--directory")
      scan_path "checkov_output" := by
  rcases hj : env.readJson (osPathJoin "checkov_output" "results_json.json")
      with _ | data <;>
    by_cases hc : env.checkovExit = 0 <;>
    simp [Kube.run_checkov_scan, Kube.generate_summary_markdown, hj, hc] at h <;>
    exact h

theorem cross_scan_cmds (env : Env) (scan_path : String) (cmd : List String)
    (h : Event.scanInvoked cmd ∈ Cross.run_checkov_scan env scan_path) :
    cmd = Cross.checkov_cmd
      (if env.isFile scan_path then "--file" else "--directory")
      scan_path "checkov_output" := by
  by_cases hc : env.checkovExit = 0 <;>
    simp [Cross.run_checkov_scan, hc] at h <;>
    exact h

theorem kube_scan_warning (env : Env) (scan_path : String)
    (hc : env.checkovExit ≠ 0) :
    Event.logWarning (checkovWarning env.checkovExit) ∈
      Kube.run_checkov_scan env scan_path := by
  rcases hj : env.readJson (osPathJoin "checkov_output" "results_json.json")
      with _ | data <;>
    simp [Kube.run_checkov_scan, Kube.generate_summary_markdown, hj, hc]

theorem cross_scan_warning (env : Env) (scan_path : String)
    (hc : env.checkovExit ≠ 0) :
    Event.logWarning (checkovWarning env.checkovExit) ∈
      Cross.run_checkov_scan env scan_path := by
  simp [Cross.run_checkov_scan, hc]

/-- C4 counterexample: the kubernetes-crossplane script does not invoke the
scanner in soft-fail mode.  On a concrete valid run its (unique) scanner
invocation carries no `--soft-fail` flag. -/
theorem C4_counterexample :
    Event.scanInvoked ["checkov", "--framework", "kubernetes", "--directory",
        "manifests", "--output", "json", "--output-file-path",
        "checkov_output"] ∈ (Cross.main witEnv argsPlain).1 ∧
    "--soft-fail" ∉ (["checkov", "--framework", "kubernetes", "--directory",
        "manifests", "--output", "json", "--output-file-path",
        "checkov_output"] : List String) := by
  constructor
  · simp [Cross.main, Cross.validate_target_directory, Cross.run_checkov_scan,
      Cross.checkov_cmd, witEnv, argsPlain]
  · decide

/-- C4 (amended): the kubernetes script invokes the scanner with
`--soft-fail`, while the kubernetes-crossplane script invokes it without
that flag; in both scripts the orchestrator exits 0 when the scan succeeds
with no violations, and a nonzero scanner exit code is surfaced as a logged
warning with the orchestrator still terminating with exit code 0. -/
theorem C4_soft_fail_amended (env : Env) (args : Args)
    (hdir : env.isDir args.target = true)
    (hro : args.render_only = false) (hr : args.render = false)
    (hdry : args.dry_run = false) (hts : args.target ≠ "--soft-fail") :
    (Kube.main env args).2 = 0 ∧ (Cross.main env args).2 = 0 ∧
    (∀ cmd, Event.scanInvoked cmd ∈ (Kube.main env args).1 →
      "--soft-fail" ∈ cmd) ∧
    (∀ cmd, Event.scanInvoked cmd ∈ (Cross.main env args).1 →
      "--soft-fail" ∉ cmd) ∧
    (env.checkovExit ≠ 0 →
      Event.logWarning (checkovWarning env.checkovExit) ∈
        (Kube.main env args).1 ∧
      Event.logWarning (checkovWarning env.checkovExit) ∈
        (Cross.main env args).1) := by
  rw [kube_main_default env args hdir hro hr hdry,
    cross_main_default env args hdir hro hr hdry]
  refine ⟨rfl, rfl, ?_, ?_, ?_⟩
  · intro cmd hm
    simp only [List.mem_cons] at hm
    rcases hm with h | h | h | h
    · exact absurd h (by simp)
    · exact absurd h (by simp)
    · exact absurd h (by simp)
    · rw [kube_scan_cmds env args.target cmd h]
      by_cases hf : env.isFile args.target = true <;>
        simp [Kube.checkov_cmd, hf]
  · intro cmd hm
    simp only [List.mem_cons] at hm
    rcases hm with h | h | h | h
    · exact absurd h (by simp)
    · exact absurd h (by simp)
    · exact absurd h (by simp)
    · rw [cross_scan_cmds env args.target cmd h]
      by_cases hf : env.isFile args.target = true <;>
        simp [Cross.checkov_cmd, hf, Ne.symm hts]
  · intro hc
    constructor
    · simp only [List.mem_cons]
      exact Or.inr (Or.inr (Or.inr (kube_scan_warning env args.target hc)))
    · simp only [List.mem_cons]
      exact Or.inr (Or.inr (Or.inr (cross_scan_warning env args.target hc)))

theorem C4_soft_fail_amended_witness :
    ((Kube.main witEnvViolations argsPlain).2 = 0 ∧
     (Cross.main witEnvViolations argsPlain).2 = 0 ∧
     (∀ cmd, Event.scanInvoked cmd ∈ (Kube.main witEnvViolations argsPlain).1 →
       "--soft-fail" ∈ cmd) ∧
     (∀ cmd, Event.scanInvoked cmd ∈ (Cross.main witEnvViolations argsPlain).1 →
       "--soft-fail" ∉ cmd) ∧
     (witEnvViolations.checkovExit ≠ 0 →
       Event.logWarning (checkovWarning witEnvViolations.checkovExit) ∈
         (Kube.main witEnvViolations argsPlain).1 ∧
       Event.logWarning (checkovWarning witEnvViolations.checkovExit) ∈
         (Cross.main witEnvViolations argsPlain).1)) :=
  C4_soft_fail_amended witEnvViolations argsPlain rfl rfl rfl rfl
    (by decide)

theorem kube_run_scan_count (env : Env) (scan_path : String) :
    (Kube.run_checkov_scan env scan_path).countP Event.isScanInvoked = 1 := by
  rcases hj : env.readJson (osPathJoin "checkov_output" "results_json.json")
      with _ | data <;>
    by_cases hc : env.checkovExit = 0 <;>
    simp [Kube.run_checkov_scan, Kube.generate_summary_markdown, hj, hc,
      List.countP_cons, Event.isScanInvoked]

theorem cross_run_scan_count (env : Env) (scan_path : String) :
    (Cross.run_checkov_scan env scan_path).countP Event.isScanInvoked = 1 := by
  by_cases hc : env.checkovExit = 0 <;>
    simp [Cross.run_checkov_scan, hc, List.countP_cons, Event.isScanInvoked]

theorem kube_run_md_count (env : Env) (scan_path : String)
    (data : CheckovReport)
    (hjson : env.readJson (osPathJoin "checkov_output" "results_json.json") =
      some data) :
    (Kube.run_checkov_scan env scan_path).countP Event.isWroteFile = 1 := by
  by_cases hc : env.checkovExit = 0 <;>
    simp [Kube.run_checkov_scan, Kube.generate_summary_markdown, hjson, hc,
      List.countP_cons, Event.isWroteFile]

theorem cross_run_md_count (env : Env) (scan_path : String) :
    (Cross.run_checkov_scan env scan_path).countP Event.isWroteFile = 0 := by
  by_cases hc : env.checkovExit = 0 <;>
    simp [Cross.run_checkov_scan, hc, List.countP_cons, Event.isWroteFile]

/-- C5 counterexample: on a concrete valid run, the kubernetes-crossplane
script invokes the scanner exactly once but writes no Markdown summary file
at all, so not every invocation that runs the scanner produces both report
files. -/
theorem C5_counterexample :
    (Cross.main witEnv argsPlain).1.countP Event.isScanInvoked = 1 ∧
    (Cross.main witEnv argsPlain).1.countP Event.isWroteFile = 0 := by
  rw [cross_main_default witEnv argsPlain rfl rfl rfl rfl]
  refine ⟨?_, ?_⟩ <;>
    simp [List.countP_cons, Event.isScanInvoked, Event.isWroteFile,
      cross_run_scan_count, cross_run_md_count]

/-- C5 (amended): in the kubernetes script, an invocation that runs the
scanner invokes it exactly once (writing the scanner's JSON report via its
output path) and, when that JSON report is readable, writes exactly one
Markdown summary; the kubernetes-crossplane script also invokes the scanner
exactly once but never writes a Markdown summary. -/
theorem C5_report_files_amended (env : Env) (args : Args)
    (data : CheckovReport)
    (hdir : env.isDir args.target = true)
    (hro : args.render_only = false) (hr : args.render = false)
    (hdry : args.dry_run = false)
    (hjson : env.readJson (osPathJoin "checkov_output" "results_json.json") =
      some data) :
    (Kube.main env args).1.countP Event.isScanInvoked = 1 ∧
    (Kube.main env args).1.countP Event.isWroteFile = 1 ∧
    (Cross.main env args).1.countP Event.isScanInvoked = 1 ∧
    (Cross.main env args).1.countP Event.isWroteFile = 0 := by
  rw [kube_main_default env args hdir hro hr hdry,
    cross_main_default env args hdir hro hr hdry]
  refine ⟨?_, ?_, ?_, ?_⟩ <;>
    simp [List.countP_cons, Event.isScanInvoked, Event.isWroteFile,
      kube_run_scan_count, cross_run_scan_count,
      kube_run_md_count env args.target data hjson, cross_run_md_count]

theorem C5_report_files_amended_witness :
    ((Kube.main witEnv argsPlain).1.countP Event.isScanInvoked = 1 ∧
     (Kube.main witEnv argsPlain).1.countP Event.isWroteFile = 1 ∧
     (Cross.main witEnv argsPlain).1.countP Event.isScanInvoked = 1 ∧
     (Cross.main witEnv argsPlain).1.countP Event.isWroteFile = 0) :=
  C5_report_files_amended witEnv argsPlain witReport rfl rfl rfl rfl rfl

theorem kube_main_render_only_no_tool (env : Env) (args : Args)
    (hdir : env.isDir args.target = true) (hro : args.render_only = true)
    (hk : env.kustomizeOnPath = false) :
    Kube.main env args =
      (Event.argsParsed :: Event.validated args.target ::
        Event.mkdir
          (osPathJoin "rendered_output" ("render-" ++ env.fileTimestamp)) ::
        [Event.logError kustomizeMissingMsg], 1) := by
  simp [Kube.main, Kube.validate_target_directory, Kube.render_kustomize,
    hdir, hro, hk]

theorem cross_main_render_only_no_tool (env : Env) (args : Args)
    (hdir : env.isDir args.target = true) (hro : args.render_only = true)
    (hk : env.kustomizeOnPath = false) :
    Cross.main env args =
      (Event.argsParsed :: Event.validated args.target ::
        Event.mkdir
          (osPathJoin "rendered_output" ("render-" ++ env.fileTimestamp)) ::
        [Event.logError kustomizeMissingMsg], 1) := by
  simp [Cross.main, Cross.validate_target_directory, Cross.render_kustomize,
    hdir, hro, hk]

theorem kube_main_render_no_tool (env : Env) (args : Args)
    (hdir : env.isDir args.target = true) (hro : args.render_only = false)
    (hr : args.render = true) (hk : env.kustomizeOnPath = false) :
    Kube.main env args =
      (Event.argsParsed :: Event.validated args.target ::
        Event.mkdir
          (osPathJoin "rendered_output" ("render-" ++ env.fileTimestamp)) ::
        [Event.logError kustomizeMissingMsg], 1) := by
  simp [Kube.main, Kube.validate_target_directory, Kube.render_kustomize,
    hdir, hro, hr, hk]

theorem cross_main_render_no_tool (env : Env) (args : Args)
    (hdir : env.isDir args.target = true) (hro : args.render_only = false)
    (hr : args.render = true) (hk : env.kustomizeOnPath = false) :
    Cross.main env args =
      (Event.argsParsed :: Event.validated args.target ::
        Event.mkdir
          (osPathJoin "rendered_output" ("render-" ++ env.fileTimestamp)) ::
        [Event.logError kustomizeMissingMsg], 1) := by
  simp [Cross.main, Cross.validate_target_directory, Cross.render_kustomize,
    hdir, hro, hr, hk]

/-- C6: in render or render-only mode with the renderer missing from PATH,
both scripts log the error and terminate with exit code 1, without invoking
the renderer or the scanner. -/
theorem C6_missing_renderer (env : Env) (args : Args)
    (hdir : env.isDir args.target = true)
    (hrend : args.render = true ∨ args.render_only = true)
    (hk : env.kustomizeOnPath = false) :
    (Kube.main env args).2 = 1 ∧ (Cross.main env args).2 = 1 ∧
    Event.logError kustomizeMissingMsg ∈ (Kube.main env args).1 ∧
    Event.logError kustomizeMissingMsg ∈ (Cross.main env args).1 ∧
    (Kube.main env args).1.countP Event.isRenderInvoked = 0 ∧
    (Kube.main env args).1.countP Event.isScanInvoked = 0 ∧
    (Cross.main env args).1.countP Event.isRenderInvoked = 0 ∧
    (Cross.main env args).1.countP Event.isScanInvoked = 0 := by
  by_cases hro : args.render_only = true
  · rw [kube_main_render_only_no_tool env args hdir hro hk,
      cross_main_render_only_no_tool env args hdir hro hk]
    refine ⟨rfl, rfl, ?_, ?_, ?_, ?_, ?_, ?_⟩ <;>
      simp [List.countP_cons, Event.isRenderInvoked, Event.isScanInvoked]
  · have hro2 : args.render_only = false := by simpa using hro
    have hr : args.render = true := by
      rcases hrend with h | h
      · exact h
      · exact absurd h hro
    rw [kube_main_render_no_tool env args hdir hro2 hr hk,
      cross_main_render_no_tool env args hdir hro2 hr hk]
    refine ⟨rfl, rfl, ?_, ?_, ?_, ?_, ?_, ?_⟩ <;>
      simp [List.countP_cons, Event.isRenderInvoked, Event.isScanInvoked]

theorem C6_missing_renderer_witness :
    ((Kube.main witEnvNoTool argsRenderOnly).2 = 1 ∧
     (Cross.main witEnvNoTool argsRenderOnly).2 = 1 ∧
     Event.logError kustomizeMissingMsg ∈
       (Kube.main witEnvNoTool argsRenderOnly).1 ∧
     Event.logError kustomizeMissingMsg ∈
       (Cross.main witEnvNoTool argsRenderOnly).1 ∧
     (Kube.main witEnvNoTool argsRenderOnly).1.countP
       Event.isRenderInvoked = 0 ∧
     (Kube.main witEnvNoTool argsRenderOnly).1.countP
       Event.isScanInvoked = 0 ∧
     (Cross.main witEnvNoTool argsRenderOnly).1.countP
       Event.isRenderInvoked = 0 ∧
     (Cross.main witEnvNoTool argsRenderOnly).1.countP
       Event.isScanInvoked = 0) :=
  C6_missing_renderer witEnvNoTool argsRenderOnly rfl (Or.inr rfl) rfl

theorem countP_logInfo_map (l : List String) (p : Event → Bool)
    (hp : ∀ s, p (Event.logInfo s) = false) :
    (l.map (fun q => Event.logInfo ("  " ++ q))).countP p = 0 := by
  induction l with
  | nil => rfl
  | cons a l ih => simp [List.countP_cons, hp, ih]

/-- C7: with the dry-run toggle set on a valid target directory and neither
render toggle set, both scripts emit the discovered manifest files and
their count, terminate with exit code 0, and never invoke the scanner. -/
theorem C7_dry_run_lists_files (env : Env) (args : Args)
    (hdir : env.isDir args.target = true)
    (hdry : args.dry_run = true)
    (hro : args.render_only = false) (hr : args.render = false) :
    Kube.main env args =
      (Event.argsParsed :: Event.validated args.target ::
        Event.filesDiscovered
          (Kube.find_yaml_files args.target (env.treeAt args.target)) ::
        Event.logInfo "[DRY RUN] YAML files discovered:" ::
        ((Kube.find_yaml_files args.target (env.treeAt args.target)).map
            (fun p => Event.logInfo ("  " ++ p)) ++
          [Event.logInfo ("[DRY RUN] Total: " ++
            toString (Kube.find_yaml_files args.target
              (env.treeAt args.target)).length ++ " file(s)")]), 0) ∧
    Cross.main env args =
      (Event.argsParsed :: Event.validated args.target ::
        Event.filesDiscovered
          (Cross.find_yaml_files args.target (env.treeAt args.target)) ::
        Event.logInfo "[DRY RUN] YAML files discovered:" ::
        ((Cross.find_yaml_files args.target (env.treeAt args.target)).map
            (fun p => Event.logInfo ("  " ++ p)) ++
          [Event.logInfo ("[DRY RUN] Total: " ++
            toString (Cross.find_yaml_files args.target
              (env.treeAt args.target)).length ++ " file(s)")]), 0) ∧
    (Kube.main env args).1.countP Event.isScanInvoked = 0 ∧
    (Cross.main env args).1.countP Event.isScanInvoked = 0 := by
  refine ⟨?_, ?_, ?_, ?_⟩
  · simp [Kube.main, Kube.validate_target_directory, hdir, hdry, hro, hr]
  · simp [Cross.main, Cross.validate_target_directory, hdir, hdry, hro, hr]
  · have h1 : Kube.main env args =
        (Event.argsParsed :: Event.validated args.target ::
          Event.filesDiscovered
            (Kube.find_yaml_files args.target (env.treeAt args.target)) ::
          Event.logInfo "[DRY RUN] YAML files discovered:" ::
          ((Kube.find_yaml_files args.target (env.treeAt args.target)).map
              (fun p => Event.logInfo ("  " ++ p)) ++
            [Event.logInfo ("[DRY RUN] Total: " ++
              toString (Kube.find_yaml_files args.target
                (env.treeAt args.target)).length ++ " file(s)")]), 0) := by
      simp [Kube.main, Kube.validate_target_directory, hdir, hdry, hro, hr]
    rw [h1]
    simp [List.countP_cons, List.countP_append, Event.isScanInvoked,
      countP_logInfo_map _ Event.isScanInvoked (fun _ => rfl)]
  · have h2 : Cross.main env args =
        (Event.argsParsed :: Event.validated args.target ::
          Event.filesDiscovered
            (Cross.find_yaml_files args.target (env.treeAt args.target)) ::
          Event.logInfo "[DRY RUN] YAML files discovered:" ::
          ((Cross.find_yaml_files args.target (env.treeAt args.target)).map
              (fun p => Event.logInfo ("  " ++ p)) ++
            [Event.logInfo ("[DRY RUN] Total: " ++
              toString (Cross.find_yaml_files args.target
                (env.treeAt args.target)).length ++ " file(s)")]), 0) := by
      simp [Cross.main, Cross.validate_target_directory, hdir, hdry, hro, hr]
    rw [h2]
    simp [List.countP_cons, List.countP_append, Event.isScanInvoked,
      countP_logInfo_map _ Event.isScanInvoked (fun _ => rfl)]

theorem C7_dry_run_lists_files_witness :
    (Kube.main witEnv argsDry =
      (Event.argsParsed :: Event.validated argsDry.target ::
        Event.filesDiscovered
          (Kube.find_yaml_files argsDry.target (witEnv.treeAt argsDry.target)) ::
        Event.logInfo "[DRY RUN] YAML files discovered:" ::
        ((Kube.find_yaml_files argsDry.target (witEnv.treeAt argsDry.target)).map
            (fun p => Event.logInfo ("  " ++ p)) ++
          [Event.logInfo ("[DRY RUN] Total: " ++
            toString (Kube.find_yaml_files argsDry.target
              (witEnv.treeAt argsDry.target)).length ++ " file(s)")]), 0) ∧
     Cross.main witEnv argsDry =
      (Event.argsParsed :: Event.validated argsDry.target ::
        Event.filesDiscovered
          (Cross.find_yaml_files argsDry.target (witEnv.treeAt argsDry.target)) ::
        Event.logInfo "[DRY RUN] YAML files discovered:" ::
        ((Cross.find_yaml_files argsDry.target (witEnv.treeAt argsDry.target)).map
            (fun p => Event.logInfo ("  " ++ p)) ++
          [Event.logInfo ("[DRY RUN] Total: " ++
            toString (Cross.find_yaml_files argsDry.target
              (witEnv.treeAt argsDry.target)).length ++ " file(s)")]), 0) ∧
     (Kube.main witEnv argsDry).1.countP Event.isScanInvoked = 0 ∧
     (Cross.main witEnv argsDry).1.countP Event.isScanInvoked = 0) :=
  C7_dry_run_lists_files witEnv argsDry rfl rfl rfl rfl

theorem kube_main_render_only_ok (env : Env) (args : Args)
    (hdir : env.isDir args.target = true) (hro : args.render_only = true)
    (hk : env.kustomizeOnPath = true) (hok : env.kustomizeOk = true) :
    Kube.main env args =
      (Event.argsParsed :: Event.validated args.target ::
        Event.mkdir
          (osPathJoin "rendered_output" ("render-" ++ env.fileTimestamp)) ::
        Event.openedForWrite
          (osPathJoin
            (osPathJoin "rendered_output" ("render-" ++ env.fileTimestamp))
            "manifest.yaml") ::
        Event.renderInvoked ["kustomize", "build", args.target] ::
        [Event.logInfo ("Render-only mode complete. Output saved to: " ++
          osPathJoin
            (osPathJoin "rendered_output" ("render-" ++ env.fileTimestamp))
            "manifest.yaml")], 0) := by
  simp [Kube.main, Kube.validate_target_directory, Kube.render_kustomize,
    hdir, hro, hk, hok]

theorem cross_main_render_only_ok (env : Env) (args : Args)
    (hdir : env.isDir args.target = true) (hro : args.render_only = true)
    (hk : env.kustomizeOnPath = true) (hok : env.kustomizeOk = true) :
    Cross.main env args =
      (Event.argsParsed :: Event.validated args.target ::
        Event.mkdir
          (osPathJoin "rendered_output" ("render-" ++ env.fileTimestamp)) ::
        Event.openedForWrite
          (osPathJoin
            (osPathJoin "rendered_output" ("render-" ++ env.fileTimestamp))
            "manifest.yaml") ::
        Event.renderInvoked ["kustomize", "build", args.target] ::
        [Event.logInfo ("Render-only mode complete. Output saved to: " ++
          osPathJoin
            (osPathJoin "rendered_output" ("render-" ++ env.fileTimestamp))
            "manifest.yaml")], 0) := by
  simp [Cross.main, Cross.validate_target_directory, Cross.render_kustomize,
    hdir, hro, hk, hok]

theorem order_sublist_aux (a v r x y z : Event) :
    List.Sublist [a, v, r] (a :: v :: x :: y :: r :: [z]) := by
  refine List.Sublist.cons₂ _ (List.Sublist.cons₂ _ ?_)
  refine List.Sublist.cons _ (List.Sublist.cons _ ?_)
  exact List.Sublist.cons₂ _ (List.Sublist.cons _ List.Sublist.slnil)

/-- C8: with the render-only toggle on a valid target and a successful
render, both scripts exit 0 without ever invoking the scanner, and the
stages occur in the order: parse options, validate input path, render. -/
theorem C8_render_only_order (env : Env) (args : Args)
    (hdir : env.isDir args.target = true)
    (hro : args.render_only = true)
    (hk : env.kustomizeOnPath = true) (hok : env.kustomizeOk = true) :
    (Kube.main env args).2 = 0 ∧ (Cross.main env args).2 = 0 ∧
    (Kube.main env args).1.countP Event.isScanInvoked = 0 ∧
    (Cross.main env args).1.countP Event.isScanInvoked = 0 ∧
    List.Sublist [Event.argsParsed, Event.validated args.target,
      Event.renderInvoked ["kustomize", "build", args.target]]
      (Kube.main env args).1 ∧
    List.Sublist [Event.argsParsed, Event.validated args.target,
      Event.renderInvoked ["kustomize", "build", args.target]]
      (Cross.main env args).1 := by
  rw [kube_main_render_only_ok env args hdir hro hk hok,
    cross_main_render_only_ok env args hdir hro hk hok]
  refine ⟨rfl, rfl, ?_, ?_, ?_, ?_⟩
  · simp [List.countP_cons, Event.isScanInvoked]
  · simp [List.countP_cons, Event.isScanInvoked]
  · exact order_sublist_aux _ _ _ _ _ _
  · exact order_sublist_aux _ _ _ _ _ _

theorem C8_render_only_order_witness :
    ((Kube.main witEnv argsRenderOnly).2 = 0 ∧
     (Cross.main witEnv argsRenderOnly).2 = 0 ∧
     (Kube.main witEnv argsRenderOnly).1.countP Event.isScanInvoked = 0 ∧
     (Cross.main witEnv argsRenderOnly).1.countP Event.isScanInvoked = 0 ∧
     List.Sublist [Event.argsParsed, Event.validated argsRenderOnly.target,
       Event.renderInvoked ["kustomize", "build", argsRenderOnly.target]]
       (Kube.main witEnv argsRenderOnly).1 ∧
     List.Sublist [Event.argsParsed, Event.validated argsRenderOnly.target,
       Event.renderInvoked ["kustomize", "build", argsRenderOnly.target]]
       (Cross.main witEnv argsRenderOnly).1) :=
  C8_render_only_order witEnv argsRenderOnly rfl rfl rfl rfl

/-- C9: when the scanner JSON report cannot be opened or parsed, the
kubernetes script logs the error, creates no Markdown summary file, and the
overall exit code is still 0. -/
theorem C9_unreadable_report (env : Env) (args : Args)
    (hdir : env.isDir args.target = true)
    (hro : args.render_only = false) (hr : args.render = false)
    (hdry : args.dry_run = false)
    (hjson : env.readJson (osPathJoin "checkov_output" "results_json.json") =
      none) :
    Event.logError "Failed to read JSON report" ∈ (Kube.main env args).1 ∧
    (Kube.main env args).1.countP Event.isWroteFile = 0 ∧
    (Kube.main env args).2 = 0 := by
  rw [kube_main_default env args hdir hro hr hdry]
  refine ⟨?_, ?_, rfl⟩
  · simp only [List.mem_cons]
    refine Or.inr (Or.inr (Or.inr ?_))
    by_cases hc : env.checkovExit = 0 <;>
      simp [Kube.run_checkov_scan, Kube.generate_summary_markdown, hjson, hc]
  · have h0 : (Kube.run_checkov_scan env args.target).countP
        Event.isWroteFile = 0 := by
      by_cases hc : env.checkovExit = 0 <;>
        simp [Kube.run_checkov_scan, Kube.generate_summary_markdown, hjson,
          hc, List.countP_cons, Event.isWroteFile]
    simp [List.countP_cons, Event.isWroteFile, h0]

theorem C9_unreadable_report_witness :
    (Event.logError "Failed to read JSON report" ∈
       (Kube.main witEnvBadJson argsPlain).1 ∧
     (Kube.main witEnvBadJson argsPlain).1.countP Event.isWroteFile = 0 ∧
     (Kube.main witEnvBadJson argsPlain).2 = 0) :=
  C9_unreadable_report witEnvBadJson argsPlain rfl rfl rfl rfl rfl
